import Mathlib

/-!
Verification development for the openfn-devtools repository, which contains
two command-line scripts:

* `generate-project.js` — an interactive wizard that collects job, trigger and
  credential definitions and serializes them to a project.yaml document;
* `upload-release` — a script that derives a tag and repository name from a
  build-artifact filename and uploads the artifact as a GitHub release asset
  unless an identically sized asset already exists.

JavaScript objects used as accumulators (`jobs`, `triggers`, `credentials`)
are embedded as association lists `List (String × α)` in insertion order;
assigning `obj[k] = v` updates an existing key in place or appends a new one.
JavaScript strings are embedded as `String`; string truthiness is `≠ ""`.
-/

/-! ## Project Spec Generator: name validation -/

/-- `duplicateCheck` from generate-project.js line 40:
`(val, obj) => !Object.keys(obj).includes(val)`. -/
def duplicateCheck {α : Type} (val : String) (obj : List (String × α)) : Bool :=
  !((obj.map Prod.fst).contains val)

/-- JavaScript object assignment `obj[k] = v`: update the value at an existing
key in place, otherwise append the new key at the end. -/
def objSet {α : Type} (m : List (String × α)) (k : String) (v : α) :
    List (String × α) :=
  if duplicateCheck k m then m ++ [(k, v)]
  else m.map (fun kv => if kv.1 == k then (k, v) else kv)

/-- The character class matched by the JavaScript regex `\s` (the set used by
`value.replace(/\s+/g, '-')` in the name form's before hook, lines 51-60). -/
def jsWs (c : Char) : Bool :=
  c == ' ' || c == '\t' || c == '\n' || c == '\r' ||
  c.toNat == 0xb || c.toNat == 0xc || c.toNat == 0xa0 || c.toNat == 0x1680 ||
  (0x2000 <= c.toNat && c.toNat <= 0x200a) ||
  c.toNat == 0x2028 || c.toNat == 0x2029 || c.toNat == 0x202f ||
  c.toNat == 0x205f || c.toNat == 0x3000 || c.toNat == 0xfeff

/-- One pass of `value.replace(/\s+/g, '-')`: each maximal run of `\s`
characters becomes a single hyphen. The flag records whether we are inside a
whitespace run that has already emitted its hyphen. -/
def collapseWsAux : Bool → List Char → List Char
  | _, [] => []
  | inRun, c :: rest =>
    if jsWs c then
      if inRun then collapseWsAux true rest
      else '-' :: collapseWsAux true rest
    else c :: collapseWsAux false rest

/-- `value.replace(/\s+/g, '-')` on a whole string. -/
def replaceWsRuns (s : String) : String :=
  String.mk (collapseWsAux false s.data)

/-- The `before` hook of the shared name form (generate-project.js lines
51-60): if the value contains a space character (`value.includes(' ')`) it is
rewritten with `replace(/\s+/g, '-')` and a substitution notice is logged.
Returns the accepted name and whether the notice was shown. -/
def beforeHook (value : String) : String × Bool :=
  if value.data.contains ' ' then (replaceWsRuns value, true)
  else (value, false)

/-! ## Project Spec Generator: trigger form -/

/-- The `conform` validator of the trigger `type` field (generate-project.js
lines 103-104): `['cron', 'message', 'success', 'failure'].includes(value)`. -/
def typeConform (value : String) : Bool :=
  ["cron", "message", "success", "failure"].contains value

/-- The prompt library substitutes a field's `default` when the entered line
is empty; fields without a default keep the empty string. -/
def applyDefault (dflt raw : String) : String :=
  if raw = "" then dflt else raw

/-- One completed pass through the trigger form: the accepted name, the
validated `type` answer, the raw line entered for the one type-specific field
whose `ask` condition fired, and the answer to "add another". -/
structure TriggerInput where
  name : String
  type : String
  fieldRaw : String
  another : String
deriving DecidableEq

/-- The `rest` object destructured from `prompt.get(triggerForm)` in
`addTrigger` (line 204): the `type` answer followed by the single
type-specific field that was asked (`ask` hooks at lines 114, 120, 126, 132),
with defaults `'* * * * *'` for `cron` and `'\x7b"a": 1\x7d'` for `criteria`;
`success` and `failure` have no default. -/
def triggerRest (t fieldRaw : String) : List (String × String) :=
  [("type", t)] ++
  (if t = "cron" then [("cron", applyDefault "* * * * *" fieldRaw)] else []) ++
  (if t = "message" then
    [("criteria", applyDefault "\x7b\"a\": 1\x7d" fieldRaw)] else []) ++
  (if t = "success" then [("success", fieldRaw)] else []) ++
  (if t = "failure" then [("failure", fieldRaw)] else [])

/-- `removeFalsy` from generate-project.js lines 150-158: keep only the
properties whose (string) value is truthy, i.e. nonempty. -/
def removeFalsy (obj : List (String × String)) : List (String × String) :=
  obj.filter (fun kv => !(kv.2 == ""))

/-- The record stored by `addTrigger` (line 205):
`triggers[name] = (removeFalsy(rest))`. -/
def storedTrigger (inp : TriggerInput) : List (String × String) :=
  removeFalsy (triggerRest inp.type inp.fieldRaw)

/-- `Object.keys(obj).includes(k)` on an embedded record. -/
def hasKey (k : String) (obj : List (String × String)) : Bool :=
  obj.any (fun kv => kv.1 == k)

/-! ## Project Spec Generator: accumulators and prompt loops -/

/-- The `rest` object stored by `addJob` (line 194): all four non-name,
non-another fields of `jobForm`, each required. -/
structure JobRec where
  expression : String
  adaptor : String
  trigger : String
  credential : String
deriving DecidableEq

/-- The three global accumulators of generate-project.js lines 18-20. -/
structure WizardState where
  jobs : List (String × JobRec)
  triggers : List (String × List (String × String))
  credentials : List (String × String)
deriving DecidableEq

/-- One completed prompt step of `addJob` (lines 192-194):
`jobs[name] = (...rest)`. -/
def addJobStep (st : WizardState) (nm : String) (rec : JobRec) : WizardState :=
  { st with jobs := objSet st.jobs nm rec }

/-- One completed prompt step of `addTrigger` (lines 203-205):
`triggers[name] = (removeFalsy(rest))`. -/
def addTriggerStep (st : WizardState) (inp : TriggerInput) : WizardState :=
  { st with triggers := objSet st.triggers inp.name (storedTrigger inp) }

/-- One completed prompt step of `addCredential` (lines 214-216):
`credentials[name] = body`. -/
def addCredentialStep (st : WizardState) (nm body : String) : WizardState :=
  { st with credentials := objSet st.credentials nm body }

/-- A sequence of submissions is accepted from state `m` when each proposed
name passes the `conform` validator `duplicateCheck` against the accumulator
as it stands at that submission (the prompt library re-prompts until `conform`
holds, so completed steps satisfy it). -/
def acceptedFrom {α : Type} (m : List (String × α)) :
    List (String × α) → Bool
  | [] => true
  | s :: rest => duplicateCheck s.1 m && acceptedFrom (objSet m s.1 s.2) rest

/-- Folding a sequence of accepted submissions into an accumulator, as the
recursive `addJob`/`addTrigger`/`addCredential` loops do. -/
def addEntities {α : Type} (m : List (String × α)) :
    List (String × α) → List (String × α)
  | [] => m
  | s :: rest => addEntities (objSet m s.1 s.2) rest

/-! ## Project Spec Generator: final assembly step -/

/-- The document passed to `yaml.dump` at line 259. -/
structure ProjectDoc where
  jobs : List (String × JobRec)
  credentials : List (String × String)
  triggers : List (String × List (String × String))
deriving DecidableEq

/-- The credentials reduce of the monolith branch (lines 246-249): read each
credential's body path with `fs.readFileSync`; the first failing read throws,
aborting the whole reduce before the reassignment happens. The file system is
embedded as a partial map from paths to contents. -/
def readAllCredentials (fsys : String → Option String) :
    List (String × String) → Option (List (String × String))
  | [] => some []
  | (k, p) :: rest =>
    match fsys p with
    | none => none
    | some content =>
      (readAllCredentials fsys rest).map (fun r => (k, content) :: r)

/-- Outcome of the final `.then` block (lines 242-265) together with the
error-swallowing `.catch` (lines 266-268): the process exit code, the document
written by `fs.writeFileSync` (none when the chain errored before the write),
and the value of the `credentials` accumulator afterwards. -/
structure GenResult where
  exitCode : Nat
  written : Option ProjectDoc
  credsAfter : List (String × String)
deriving DecidableEq

/-- The final `.then` block of generate-project.js (lines 242-265). In
monolith mode the credentials reduce runs first; if any read throws, the
`.catch` at lines 266-268 only logs the message, so nothing is written and the
process still exits 0. If the reads succeed, the jobs reduce at lines 251-256
evaluates `acc[key][expression]` where `expression` is an undeclared
identifier, throwing a ReferenceError whenever `jobs` is nonempty — again
caught by the logging-only `.catch`, exit code 0, nothing written. -/
def finalAssembly (fsys : String → Option String) (mode : String)
    (jobs : List (String × JobRec)) (creds : List (String × String))
    (triggers : List (String × List (String × String))) : GenResult :=
  if mode = "monolith" then
    match readAllCredentials fsys creds with
    | none => ⟨0, none, creds⟩
    | some newCreds =>
      if jobs.isEmpty then ⟨0, some ⟨jobs, newCreds, triggers⟩, newCreds⟩
      else ⟨0, none, newCreds⟩
  else ⟨0, some ⟨jobs, creds, triggers⟩, creds⟩

/-! ## Release Uploader: the two filename regexes

upload-release derives the tag and repository name (lines 322-323) with

* `file.match(/(\d+\.\d+\.\d+)\.tgz$/)[1]`
* `file.match(/\/([\w-]+)-v[\d\.]+\.tgz$/)[1]`

Both regexes are embedded with a small backtracking matcher over the exact
constructs they use: literals, the classes `\d`, `[\w-]`, `[\d.]`, greedy `+`
over a class, concatenation, and one capture group; the `$` anchor is the
requirement that a candidate match consumes the rest of the string, and the
leftmost-match rule is the scan over start positions in `jsMatchFrom`. -/

/-- The single-character patterns occurring in the two regexes. -/
inductive RChar where
  | lit (c : Char)
  | digit
  | wordDash
  | digitDot
deriving DecidableEq

/-- Which characters each single-character pattern matches (`\d` is `[0-9]`,
`\w` is `[A-Za-z0-9_]`). -/
def RChar.matchesChar : RChar → Char → Bool
  | .lit c, x => x == c
  | .digit, x => x.isDigit
  | .wordDash, x => x.isAlphanum || x == '_' || x == '-'
  | .digitDot, x => x.isDigit || x == '.'

/-- Regex syntax: the fragment used by the two patterns of upload-release. -/
inductive RE where
  | eps
  | cls (k : RChar)
  | cat (a b : RE)
  | plus (k : RChar)
  | group (a : RE)

/-- Greedy `k+`: the possible remainders after consuming one or more `k`
characters, longest consumption first (the backtracking priority order of a
greedy quantifier). -/
def plusRests (k : RChar) : List Char → List (List Char)
  | [] => []
  | c :: rest =>
    if k.matchesChar c then plusRests k rest ++ [rest] else []

/-- Backtracking matcher: all ways the pattern can match a prefix of `s`, in
the engine's trial order, each with the group-1 capture (if the group was
entered) and the unconsumed remainder. -/
def reRuns : RE → List Char → List (Option (List Char) × List Char)
  | .eps, s => [(none, s)]
  | .cls _, [] => []
  | .cls k, c :: rest => if k.matchesChar c then [(none, rest)] else []
  | .cat a b, s =>
    (reRuns a s).flatMap (fun pr =>
      (reRuns b pr.2).map (fun qr => (qr.1 <|> pr.1, qr.2)))
  | .plus k, s => (plusRests k s).map (fun r => ((none : Option (List Char)), r))
  | .group a, s =>
    (reRuns a s).map (fun pr => (some (s.take (s.length - pr.2.length)), pr.2))

/-- Match the `$`-anchored pattern at one start position: the first run (in
backtracking order) that consumes the whole remaining string; `some cap`
holds the group-1 capture of that run. -/
def matchEndHere (r : RE) (s : List Char) : Option (Option (List Char)) :=
  (((reRuns r s).filter (fun pr => pr.2.isEmpty)).head?).map Prod.fst

/-- `String.prototype.match` with a `$`-anchored pattern: try each start
position from the left; the first position admitting a full match wins. -/
def jsMatchFrom (r : RE) : List Char → Option (Option (List Char))
  | [] => matchEndHere r []
  | c :: rest =>
    match matchEndHere r (c :: rest) with
    | some cap => some cap
    | none => jsMatchFrom r rest

/-- Concatenation of a list of regex fragments. -/
def catList (rs : List RE) : RE := rs.foldr RE.cat RE.eps

/-- `/(\d+\.\d+\.\d+)\.tgz$/` (upload-release line 322). -/
def tagRE : RE :=
  catList [.group (catList [.plus .digit, .cls (.lit '.'), .plus .digit,
                            .cls (.lit '.'), .plus .digit]),
           .cls (.lit '.'), .cls (.lit 't'), .cls (.lit 'g'), .cls (.lit 'z')]

/-- `/\/([\w-]+)-v[\d\.]+\.tgz$/` (upload-release line 323). -/
def repoRE : RE :=
  catList [.cls (.lit '/'), .group (.plus .wordDash), .cls (.lit '-'),
           .cls (.lit 'v'), .plus .digitDot,
           .cls (.lit '.'), .cls (.lit 't'), .cls (.lit 'g'), .cls (.lit 'z')]

/-- `'v' + file.match(/(\d+\.\d+\.\d+)\.tgz$/)[1]`; `none` when the match is
null, in which case indexing `[1]` throws and the outer catch exits 1. -/
def deriveTag (file : String) : Option String :=
  match jsMatchFrom tagRE file.data with
  | some (some cap) => some ("v" ++ String.mk cap)
  | _ => none

/-- `file.match(/\/([\w-]+)-v[\d\.]+\.tgz$/)[1]`; `none` when the match is
null, in which case indexing `[1]` throws and the outer catch exits 1. -/
def deriveRepo (file : String) : Option String :=
  match jsMatchFrom repoRE file.data with
  | some (some cap) => some (String.mk cap)
  | _ => none

/-! ## Release Uploader: run model -/

/-- A release asset as returned by the hosting API (`name`, `size`, `id`). -/
structure Asset where
  name : String
  size : Nat
  id : Nat
deriving DecidableEq

/-- The release object returned by `getReleaseByTag` (`data.id`,
`data.assets`). -/
structure Release where
  id : Nat
  assets : List Asset
deriving DecidableEq

/-- Collaborator response to `findBuildFor`: the release, a 404, or any other
API error (both failure cases reject and reach the outer catch). -/
inductive LookupOutcome where
  | found (r : Release)
  | notFound
  | apiError
deriving DecidableEq

/-- Collaborator response to `uploadReleaseAsset`: success with the
`browser_download_url`, an ENOENT-status failure (re-rejected as-is), or any
other failure (wrapped as "Upload Failed."); every failure exits 1. -/
inductive UploadOutcome where
  | success (url : String)
  | enoent
  | otherError
deriving DecidableEq

/-- The network requests the script can issue, in issue order. -/
inductive ApiCall where
  | getReleaseByTag (repo tag : String)
  | deleteReleaseAsset (assetId : Nat)
  | uploadReleaseAsset (assetName : String) (releaseId : Nat)
deriving DecidableEq

/-- One run's environment: the parsed CLI options and the responses the
collaborators (GitHub API, local file system) would give. `localSize` is
`fs.statSync(file).size`; `readOk` is whether `fs.readFileSync(file)`
succeeds when the upload arguments are built. -/
structure UpEnv where
  token : Option String
  file : Option String
  updateExisting : Bool
  lookup : LookupOutcome
  localSize : Nat
  readOk : Bool
  deleteOk : Bool
  upload : UploadOutcome
deriving DecidableEq

/-- Observable outcome of a run: the process exit code, the network calls
issued in order, and the download URL printed on success. -/
structure RunResult where
  exitCode : Nat
  calls : List ApiCall
  printedUrl : Option String
deriving DecidableEq

/-- The upload step (upload-release lines 398-420): `fs.readFileSync(file)`
is evaluated while building the call's arguments, so a failed read issues no
upload call and exits 1; otherwise exactly one `uploadReleaseAsset` call with
the fixed asset name `build.tgz` is issued, and its outcome decides the exit
code and the printed URL. -/
def uploadStep (env : UpEnv) (releaseId : Nat) (callsSoFar : List ApiCall) :
    RunResult :=
  if env.readOk then
    let calls := callsSoFar ++ [ApiCall.uploadReleaseAsset "build.tgz" releaseId]
    match env.upload with
    | .success url => ⟨0, calls, some url⟩
    | .enoent => ⟨1, calls, none⟩
    | .otherError => ⟨1, calls, none⟩
  else ⟨1, callsSoFar, none⟩

/-- The whole upload-release run (lines 310-341 driving `findBuildFor` and
`uploadUnlessExists`): check the token and `-i` argument, derive tag then
repo (exiting 1 before any network call if either match is null), look up the
release, then apply the conflict policy of `uploadUnlessExists`
(lines 370-396): an existing `build.tgz` asset of equal size, or of different
size without `-u`, throws `AlreadyExists` (exit 2, no further calls); with
`-u` the asset is deleted and the upload proceeds. -/
def runUploader (env : UpEnv) : RunResult :=
  match env.token with
  | none => ⟨1, [], none⟩
  | some _ =>
    match env.file with
    | none => ⟨1, [], none⟩
    | some file =>
      match deriveTag file with
      | none => ⟨1, [], none⟩
      | some tag =>
        match deriveRepo file with
        | none => ⟨1, [], none⟩
        | some repo =>
          let lk := ApiCall.getReleaseByTag repo tag
          match env.lookup with
          | .notFound => ⟨1, [lk], none⟩
          | .apiError => ⟨1, [lk], none⟩
          | .found release =>
            match (release.assets.filter
                (fun a => a.name == "build.tgz")).head? with
            | some existing =>
              if env.localSize = existing.size then ⟨2, [lk], none⟩
              else if env.updateExisting then
                if env.deleteOk then
                  uploadStep env release.id
                    [lk, ApiCall.deleteReleaseAsset existing.id]
                else ⟨1, [lk, ApiCall.deleteReleaseAsset existing.id], none⟩
              else ⟨2, [lk], none⟩
            | none => uploadStep env release.id [lk]

/-! ## Helper lemmas -/

theorem duplicateCheck_false_iff {α : Type} (v : String)
    (m : List (String × α)) :
    duplicateCheck v m = false ↔ v ∈ m.map Prod.fst := by
  simp [duplicateCheck]

theorem duplicateCheck_true_iff {α : Type} (v : String)
    (m : List (String × α)) :
    duplicateCheck v m = true ↔ v ∉ m.map Prod.fst := by
  simp [duplicateCheck]

theorem objSet_fresh {α : Type} {m : List (String × α)} {k : String} (v : α)
    (h : duplicateCheck k m = true) : objSet m k v = m ++ [(k, v)] := by
  simp [objSet, h]

theorem addEntities_keys_nodup {α : Type} (subs : List (String × α)) :
    ∀ m : List (String × α), (m.map Prod.fst).Nodup →
      acceptedFrom m subs = true →
      ((addEntities m subs).map Prod.fst).Nodup := by
  induction subs with
  | nil => intro m hm _; exact hm
  | cons s rest ih =>
    intro m hm hacc
    rw [acceptedFrom, Bool.and_eq_true] at hacc
    rw [addEntities]
    apply ih
    · rw [objSet_fresh s.2 hacc.1, List.map_append]
      rw [List.nodup_append]
      refine ⟨hm, by simp, ?_⟩
      intro x hx
      simp only [List.map_cons, List.map_nil, List.mem_singleton]
      intro hmem
      subst hmem
      exact (duplicateCheck_true_iff s.1 m).mp hacc.1 hx
    · exact hacc.2

theorem removeFalsy_val_ne {kv : String × String}
    {obj : List (String × String)} (h : kv ∈ removeFalsy obj) : kv.2 ≠ "" := by
  have h2 := (List.mem_filter.mp h).2
  simpa using h2

theorem collapseWsAux_no_ws (l : List Char) : ∀ (b : Bool) (c : Char),
    c ∈ collapseWsAux b l → jsWs c = false := by
  induction l with
  | nil => intro b c h; simp [collapseWsAux] at h
  | cons x rest ih =>
    intro b c h
    rw [collapseWsAux] at h
    by_cases hx : jsWs x = true
    · rw [if_pos hx] at h
      cases b with
      | true => exact ih true c h
      | false =>
        rcases List.mem_cons.mp h with h1 | h2
        · subst h1; decide
        · exact ih true c h2
    · rw [if_neg hx] at h
      rcases List.mem_cons.mp h with h1 | h2
      · subst h1; exact Bool.eq_false_iff.mpr hx
      · exact ih false c h2

theorem readAllCredentials_some (fsys : String → Option String) :
    ∀ creds : List (String × String),
      (∀ kp ∈ creds, (fsys kp.2).isSome = true) →
      readAllCredentials fsys creds =
        some (creds.map (fun kp => (kp.1, (fsys kp.2).getD ""))) := by
  intro creds
  induction creds with
  | nil => intro _; rfl
  | cons kp rest ih =>
    intro h
    obtain ⟨k, p⟩ := kp
    obtain ⟨content, hc⟩ :=
      Option.isSome_iff_exists.mp (h (k, p) (List.mem_cons_self _ _))
    rw [readAllCredentials, hc, ih (fun q hq => h q (List.mem_cons_of_mem _ hq))]
    simp [hc]

theorem readAllCredentials_none (fsys : String → Option String) :
    ∀ (creds : List (String × String)) (kp : String × String),
      kp ∈ creds → fsys kp.2 = none →
      readAllCredentials fsys creds = none := by
  intro creds
  induction creds with
  | nil => intro kp h _; simp at h
  | cons q rest ih =>
    intro kp hmem hnone
    obtain ⟨k, p⟩ := q
    rcases List.mem_cons.mp hmem with h1 | h2
    · subst h1
      rw [readAllCredentials, hnone]
    · rw [readAllCredentials]
      cases hq : fsys p with
      | none => rfl
      | some content => rw [ih kp h2 hnone]; rfl

/-! ## Claims -/

/-- Claim C5, counterexample: the trigger type validator rejects "scheduled",
"on-success" and "on-failure" and accepts "cron", so the accepted literals
are not the four values the claim names. -/
theorem C5_counterexample :
    typeConform "scheduled" = false ∧ typeConform "on-success" = false ∧
    typeConform "on-failure" = false ∧ typeConform "cron" = true := by
  decide

/-- Claim C5 (amended): the trigger type field's `conform` validator accepts
exactly the four literal values "cron", "message", "success" and "failure";
every other entered value is rejected (and re-prompted by the prompt
library). -/
theorem C5_trigger_type_literals (v : String) :
    typeConform v = true ↔
      (v = "cron" ∨ v = "message" ∨ v = "success" ∨ v = "failure") := by
  simp [typeConform]

/-- Claim C9: a trigger submission whose asked type-specific field's answer
is the empty string (possible for the `success` and `failure` fields, which
have no default) stores a record containing only the `type` field — zero
type-specific fields. -/
theorem C9_blank_success_failure (n an t : String)
    (ht : t = "success" ∨ t = "failure") :
    storedTrigger ⟨n, t, "", an⟩ = [("type", t)] := by
  rcases ht with h | h <;> subst h <;> rfl

/-- Witness for C9 at the concrete input type "success", blank answer. -/
theorem C9_witness :
    storedTrigger ⟨"t", "success", "", "n"⟩ = [("type", "success")] :=
  C9_blank_success_failure "t" "n" "success" (Or.inl rfl)

/-- Claim C8, counterexample: the before hook only fires on
`value.includes(' ')`, so the proposed name "a\tb" — which contains
whitespace (a tab) but no space — is accepted unchanged, still containing
whitespace, with no substitution notice. -/
theorem C8_counterexample :
    beforeHook "a\tb" = ("a\tb", false) ∧ jsWs '\t' = true := by
  decide

/-- Claim C8 (amended): for every proposed name containing a space character,
the accepted name is the input with every whitespace run replaced by a single
hyphen, hence contains no whitespace, and the substitution notice is shown
before acceptance. -/
theorem C8_space_names_rewritten (v : String)
    (h : v.data.contains ' ' = true) :
    (beforeHook v).1 = replaceWsRuns v ∧
    (∀ c ∈ (beforeHook v).1.data, jsWs c = false) ∧
    (beforeHook v).2 = true := by
  rw [beforeHook, if_pos h]
  refine ⟨rfl, ?_, rfl⟩
  intro c hc
  exact collapseWsAux_no_ws v.data false c hc

/-- Witness for C8 at the concrete proposed name "my job". -/
theorem C8_witness :
    (beforeHook "my job").1 = "my-job" ∧
    (∀ c ∈ (beforeHook "my job").1.data, jsWs c = false) ∧
    (beforeHook "my job").2 = true := by
  have h := C8_space_names_rewritten "my job" (by decide)
  exact ⟨by decide, h.2.1, h.2.2⟩

/-- Claim C6, counterexample: a stored trigger of type "success" whose
`success` answer was blank contains no type-specific field at all, so the
type-matching field is not always present. -/
theorem C6_counterexample :
    storedTrigger ⟨"t", "success", "", "n"⟩ = [("type", "success")] ∧
    hasKey "success" (storedTrigger ⟨"t", "success", "", "n"⟩) = false := by
  decide

/-- Claim C6 (amended): a stored trigger never contains a type-specific field
other than the one matching its type; the matching field is always present
for types "message" and "cron" (their prompts have defaults), and present for
"success"/"failure" exactly when the entered answer was nonblank; every
blank/falsy field is omitted from the stored record. -/
theorem C6_type_specific_fields (inp : TriggerInput) :
    (inp.type = "message" →
      hasKey "criteria" (storedTrigger inp) = true ∧
      hasKey "cron" (storedTrigger inp) = false ∧
      hasKey "success" (storedTrigger inp) = false ∧
      hasKey "failure" (storedTrigger inp) = false) ∧
    (inp.type = "cron" →
      hasKey "cron" (storedTrigger inp) = true ∧
      hasKey "criteria" (storedTrigger inp) = false ∧
      hasKey "success" (storedTrigger inp) = false ∧
      hasKey "failure" (storedTrigger inp) = false) ∧
    (inp.type = "success" →
      hasKey "cron" (storedTrigger inp) = false ∧
      hasKey "criteria" (storedTrigger inp) = false ∧
      hasKey "failure" (storedTrigger inp) = false ∧
      hasKey "success" (storedTrigger inp) = !(inp.fieldRaw == "")) ∧
    (inp.type = "failure" →
      hasKey "cron" (storedTrigger inp) = false ∧
      hasKey "criteria" (storedTrigger inp) = false ∧
      hasKey "success" (storedTrigger inp) = false ∧
      hasKey "failure" (storedTrigger inp) = !(inp.fieldRaw == "")) ∧
    (∀ kv ∈ storedTrigger inp, kv.2 ≠ "") := by
  obtain ⟨n, t, raw, an⟩ := inp
  refine ⟨?_, ?_, ?_, ?_, fun kv hkv => removeFalsy_val_ne hkv⟩ <;>
    intro h <;> subst h <;>
    by_cases hraw : raw = "" <;>
    simp [storedTrigger, triggerRest, removeFalsy, hasKey, applyDefault, hraw]

/-- Witness for C6 at concrete submissions of each shape. -/
theorem C6_witness :
    hasKey "criteria" (storedTrigger ⟨"t", "message", "", "n"⟩) = true ∧
    hasKey "cron" (storedTrigger ⟨"t2", "cron", "", "n"⟩) = true ∧
    hasKey "failure" (storedTrigger ⟨"t3", "failure", "job1", "n"⟩) = true :=
  ⟨((C6_type_specific_fields ⟨"t", "message", "", "n"⟩).1 rfl).1,
   ((C6_type_specific_fields ⟨"t2", "cron", "", "n"⟩).2.1 rfl).1,
   (((C6_type_specific_fields ⟨"t3", "failure", "job1", "n"⟩).2.2.2.1
      rfl).2.2.2).trans (by decide)⟩

/-- Claim C7: within one entity kind, a proposed name equal to an
already-stored name fails the `conform` validator `duplicateCheck` (so the
prompt library re-prompts), and any sequence of additions whose proposed
names each pass the validator keeps the stored names of that kind pairwise
distinct. -/
theorem C7_name_uniqueness :
    (∀ (α : Type) (m : List (String × α)) (nm : String),
      nm ∈ m.map Prod.fst → duplicateCheck nm m = false) ∧
    (∀ (α : Type) (subs m : List (String × α)),
      (m.map Prod.fst).Nodup → acceptedFrom m subs = true →
      ((addEntities m subs).map Prod.fst).Nodup) :=
  ⟨fun _ m nm h => (duplicateCheck_false_iff nm m).mpr h,
   fun _ subs m hm hacc => addEntities_keys_nodup subs m hm hacc⟩

/-- Witness for C7: a duplicate proposal is rejected and an accepted run
yields pairwise-distinct stored names. -/
theorem C7_witness :
    duplicateCheck "job-1" [("job-1", "x")] = false ∧
    ((addEntities ([] : List (String × String))
        [("a", "1"), ("b", "2")]).map Prod.fst).Nodup :=
  ⟨C7_name_uniqueness.1 String [("job-1", "x")] "job-1" (by decide),
   C7_name_uniqueness.2 String [("a", "1"), ("b", "2")] [] (by decide)
     (by decide)⟩

/-- Claim C10: each completed `addJob`/`addTrigger`/`addCredential` prompt
step appends exactly one entry under the accepted (conform-validated, hence
fresh) name to its own mapping, leaving every previously stored entry of that
mapping and the other two mappings unchanged. -/
theorem C10_add_step_frame (st : WizardState) (jn : String) (jr : JobRec)
    (tin : TriggerInput) (cn cb : String) :
    (duplicateCheck jn st.jobs = true →
      addJobStep st jn jr = { st with jobs := st.jobs ++ [(jn, jr)] }) ∧
    (duplicateCheck tin.name st.triggers = true →
      addTriggerStep st tin =
        { st with triggers := st.triggers ++ [(tin.name, storedTrigger tin)] }) ∧
    (duplicateCheck cn st.credentials = true →
      addCredentialStep st cn cb =
        { st with credentials := st.credentials ++ [(cn, cb)] }) := by
  refine ⟨fun h => ?_, fun h => ?_, fun h => ?_⟩ <;>
    simp [addJobStep, addTriggerStep, addCredentialStep, objSet_fresh _ h]

/-- Witness for C10 at a concrete state holding one entity of each kind. -/
theorem C10_witness :
    addJobStep ⟨[("j0", ⟨"e0", "a0", "t0", "c0"⟩)], [("t0", [("type", "cron")])],
        [("c0", "p0")]⟩ "j1" ⟨"e1", "a1", "t1", "c1"⟩ =
      ⟨[("j0", ⟨"e0", "a0", "t0", "c0"⟩), ("j1", ⟨"e1", "a1", "t1", "c1"⟩)],
       [("t0", [("type", "cron")])], [("c0", "p0")]⟩ ∧
    addCredentialStep ⟨[("j0", ⟨"e0", "a0", "t0", "c0"⟩)],
        [("t0", [("type", "cron")])], [("c0", "p0")]⟩ "c1" "p1" =
      ⟨[("j0", ⟨"e0", "a0", "t0", "c0"⟩)], [("t0", [("type", "cron")])],
       [("c0", "p0"), ("c1", "p1")]⟩ :=
  ⟨(C10_add_step_frame ⟨[("j0", ⟨"e0", "a0", "t0", "c0"⟩)],
      [("t0", [("type", "cron")])], [("c0", "p0")]⟩ "j1" ⟨"e1", "a1", "t1", "c1"⟩
      ⟨"tx", "cron", "", "n"⟩ "c1" "p1").1 (by decide),
   (C10_add_step_frame ⟨[("j0", ⟨"e0", "a0", "t0", "c0"⟩)],
      [("t0", [("type", "cron")])], [("c0", "p0")]⟩ "j1" ⟨"e1", "a1", "t1", "c1"⟩
      ⟨"tx", "cron", "", "n"⟩ "c1" "p1").2.2 (by decide)⟩

/-- Claim C4, counterexample: in monolith mode with an unreadable credential
body path, the run aborts without writing the document, but the final
`.catch` only logs the error, so the process exit code is 0, not non-zero. -/
theorem C4_counterexample :
    (finalAssembly (fun _ => none) "monolith" [("j", ⟨"e", "a", "t", "c"⟩)]
        [("c", "missing.json")] []).exitCode = 0 ∧
    (finalAssembly (fun _ => none) "monolith" [("j", ⟨"e", "a", "t", "c"⟩)]
        [("c", "missing.json")] []).written = none := by
  decide

/-- Claim C4 (amended): in monolith mode, after the collection loops, every
credential's stored body path is replaced by the synchronously read contents
of the file at that path when all reads succeed; if any read fails, the run
aborts — the output document is not written and the credentials accumulator
is left untouched — but the logging-only catch handler makes the process exit
with code 0 rather than a non-zero code. -/
theorem C4_monolith_credentials (fsys : String → Option String)
    (jobs : List (String × JobRec)) (creds : List (String × String))
    (trgs : List (String × List (String × String))) :
    ((∀ kp ∈ creds, (fsys kp.2).isSome = true) →
      (finalAssembly fsys "monolith" jobs creds trgs).credsAfter =
        creds.map (fun kp => (kp.1, (fsys kp.2).getD ""))) ∧
    ((∃ kp ∈ creds, fsys kp.2 = none) →
      finalAssembly fsys "monolith" jobs creds trgs = ⟨0, none, creds⟩) := by
  constructor
  · intro h
    rw [finalAssembly, if_pos rfl, readAllCredentials_some fsys creds h]
    by_cases hj : jobs.isEmpty <;> simp [hj]
  · rintro ⟨kp, hmem, hnone⟩
    rw [finalAssembly, if_pos rfl,
      readAllCredentials_none fsys creds kp hmem hnone]

/-- Witness for C4: one run where the single credential file is readable and
one where it is not. -/
theorem C4_witness :
    (finalAssembly (fun p => if p = "p1" then some "BODY" else none)
        "monolith" [] [("c", "p1")] []).credsAfter = [("c", "BODY")] ∧
    finalAssembly (fun p => if p = "p1" then some "BODY" else none)
        "monolith" [] [("c", "nope")] [] = ⟨0, none, [("c", "nope")]⟩ := by
  have h1 := (C4_monolith_credentials
    (fun p => if p = "p1" then some "BODY" else none) [] [("c", "p1")] []).1
    (by decide)
  have h2 := (C4_monolith_credentials
    (fun p => if p = "p1" then some "BODY" else none) [] [("c", "nope")] []).2
    ⟨("c", "nope"), by decide, by decide⟩
  exact ⟨h1.trans (by decide), h2⟩

/-- Claim C1, counterexample: for the bare input filename
"myrepo-v1.2.3.tgz" the repository regex `/\/([\w-]+)-v[\d\.]+\.tgz$/`
requires a '/' before the repository name and so does not match; instead of
deriving repository "myrepo", the run exits with code 1 without any network
call. -/
theorem C1_counterexample :
    deriveRepo "myrepo-v1.2.3.tgz" = none ∧
    runUploader ⟨some "tok", some "myrepo-v1.2.3.tgz", false, .notFound, 0,
      true, true, .otherError⟩ = ⟨1, [], none⟩ := by
  decide

/-- Claim C1 (amended): the repository pattern needs a '/' before the
repository name, so the uploader derives tag "v1.2.3" and repository "myrepo"
for the path "./builds/myrepo-v1.2.3.tgz"; and whenever either filename
pattern fails to match, the run exits with code 1 having issued no network
call. -/
theorem C1_derive_or_exit (tok f : String) (upd ro dok : Bool)
    (lk : LookupOutcome) (ls : Nat) (up : UploadOutcome)
    (h : deriveTag f = none ∨ deriveRepo f = none) :
    deriveTag "./builds/myrepo-v1.2.3.tgz" = some "v1.2.3" ∧
    deriveRepo "./builds/myrepo-v1.2.3.tgz" = some "myrepo" ∧
    runUploader ⟨some tok, some f, upd, lk, ls, ro, dok, up⟩ =
      ⟨1, [], none⟩ := by
  refine ⟨by decide, by decide, ?_⟩
  rcases h with h | h
  · simp [runUploader, h]
  · cases htag : deriveTag f with
    | none => simp [runUploader, htag]
    | some tag => simp [runUploader, htag, h]

/-- Witness for C1 at the non-matching filename "x.txt". -/
theorem C1_witness :
    runUploader ⟨some "tok", some "x.txt", false, .notFound, 0, true, true,
      .otherError⟩ = ⟨1, [], none⟩ :=
  (C1_derive_or_exit "tok" "x.txt" false true true .notFound 0 .otherError
    (Or.inl (by decide))).2.2

/-- Claim C2: when the looked-up release has a build.tgz asset (the first
asset with that name), an equal local size exits 2 with only the lookup call
issued (no upload), and a differing size without the -u flag exits 2 with
neither a delete nor an upload call issued. -/
theorem C2_already_exists_skips (tok f tag repo : String) (r : Release)
    (a : Asset) (ls : Nat) (ro dok : Bool) (up : UploadOutcome)
    (htag : deriveTag f = some tag) (hrepo : deriveRepo f = some repo)
    (hex : (r.assets.filter (fun x => x.name == "build.tgz")).head? = some a) :
    (ls = a.size → ∀ upd : Bool,
      runUploader ⟨some tok, some f, upd, .found r, ls, ro, dok, up⟩ =
        ⟨2, [ApiCall.getReleaseByTag repo tag], none⟩) ∧
    (ls ≠ a.size →
      runUploader ⟨some tok, some f, false, .found r, ls, ro, dok, up⟩ =
        ⟨2, [ApiCall.getReleaseByTag repo tag], none⟩) := by
  constructor
  · intro hsz upd
    simp [runUploader, htag, hrepo, hex, hsz]
  · intro hsz
    simp [runUploader, htag, hrepo, hex, hsz]

/-- Witness for C2: a release whose build.tgz asset has size 5, against a
local artifact of size 5 (equal) and of size 6 without -u. -/
theorem C2_witness :
    runUploader ⟨some "t", some "/r-v1.2.3.tgz", true,
        .found ⟨10, [⟨"build.tgz", 5, 7⟩]⟩, 5, true, true, .success "u"⟩ =
      ⟨2, [ApiCall.getReleaseByTag "r" "v1.2.3"], none⟩ ∧
    runUploader ⟨some "t", some "/r-v1.2.3.tgz", false,
        .found ⟨10, [⟨"build.tgz", 5, 7⟩]⟩, 6, true, true, .success "u"⟩ =
      ⟨2, [ApiCall.getReleaseByTag "r" "v1.2.3"], none⟩ :=
  ⟨(C2_already_exists_skips "t" "/r-v1.2.3.tgz" "v1.2.3" "r"
      ⟨10, [⟨"build.tgz", 5, 7⟩]⟩ ⟨"build.tgz", 5, 7⟩ 5 true true
      (.success "u") (by decide) (by decide) (by decide)).1 rfl true,
   (C2_already_exists_skips "t" "/r-v1.2.3.tgz" "v1.2.3" "r"
      ⟨10, [⟨"build.tgz", 5, 7⟩]⟩ ⟨"build.tgz", 5, 7⟩ 6 true true
      (.success "u") (by decide) (by decide) (by decide)).2 (by decide)⟩

/-- Claim C3: with an existing build.tgz asset of a different size and the -u
flag set (delete and local read succeeding), the asset is deleted and then
exactly one upload call is made; with no build.tgz asset, exactly one upload
call with asset name build.tgz is made, the run exits 0 and the returned
download URL is printed. -/
theorem C3_delete_then_upload (tok f tag repo : String) (r : Release)
    (ls : Nat) (up : UploadOutcome) (url : String)
    (htag : deriveTag f = some tag) (hrepo : deriveRepo f = some repo) :
    (∀ a : Asset,
      (r.assets.filter (fun x => x.name == "build.tgz")).head? = some a →
      ls ≠ a.size →
      (runUploader ⟨some tok, some f, true, .found r, ls, true, true,
          up⟩).calls =
        [ApiCall.getReleaseByTag repo tag, ApiCall.deleteReleaseAsset a.id,
         ApiCall.uploadReleaseAsset "build.tgz" r.id]) ∧
    ((r.assets.filter (fun x => x.name == "build.tgz")).head? = none →
      ∀ upd : Bool,
      runUploader ⟨some tok, some f, upd, .found r, ls, true, true,
          .success url⟩ =
        ⟨0, [ApiCall.getReleaseByTag repo tag,
             ApiCall.uploadReleaseAsset "build.tgz" r.id], some url⟩) := by
  constructor
  · intro a hex hsz
    cases up <;> simp [runUploader, htag, hrepo, hex, hsz, uploadStep]
  · intro hnone upd
    simp [runUploader, htag, hrepo, hnone, uploadStep]

/-- Witness for C3: a differing-size replace run and a fresh-upload run. -/
theorem C3_witness :
    (runUploader ⟨some "t", some "/r-v1.2.3.tgz", true,
        .found ⟨10, [⟨"build.tgz", 5, 7⟩]⟩, 6, true, true,
        .success "u"⟩).calls =
      [ApiCall.getReleaseByTag "r" "v1.2.3", ApiCall.deleteReleaseAsset 7,
       ApiCall.uploadReleaseAsset "build.tgz" 10] ∧
    runUploader ⟨some "t", some "/r-v1.2.3.tgz", false, .found ⟨10, []⟩, 6,
        true, true, .success "u"⟩ =
      ⟨0, [ApiCall.getReleaseByTag "r" "v1.2.3",
           ApiCall.uploadReleaseAsset "build.tgz" 10], some "u"⟩ :=
  ⟨(C3_delete_then_upload "t" "/r-v1.2.3.tgz" "v1.2.3" "r"
      ⟨10, [⟨"build.tgz", 5, 7⟩]⟩ 6 (.success "u") "u" (by decide)
      (by decide)).1 ⟨"build.tgz", 5, 7⟩ (by decide) (by decide),
   (C3_delete_then_upload "t" "/r-v1.2.3.tgz" "v1.2.3" "r" ⟨10, []⟩ 6
      (.success "u") "u" (by decide) (by decide)).2 (by decide) false⟩
